import Mathlib

/-!
Shallow embedding of the react-native-motionify scroll library.

The classifier, idle machinery and configuration setters live in
MotionifyProvider (the scroll handler onScroll, resetToIdle,
resetScrollTimeout, setThreshold, setSupportIdle and the useMotionify
hook).  Interpolation helpers live in the utils module
(createInterpolation and friends).  JavaScript numbers are modelled as
rationals; the asynchronous runOnJS hand-offs to the JS thread are
modelled synchronously, so the shared value directionShared and its JS
mirror coincide and are a single field.
-/

/-- Scroll direction state: up, down, or idle (source: types, Direction). -/
inductive Direction where
  | up
  | down
  | idle
deriving DecidableEq, Repr

/-- One scroll event sample: contentOffset.y, contentSize.height and
layoutMeasurement.height of the native scroll event. -/
structure ScrollSample where
  offsetY : ℚ
  contentHeight : ℚ
  viewportHeight : ℚ
deriving DecidableEq, Repr

/-- State owned by MotionifyProvider: the shared values (scrollY,
direction), the published React state (isScrolling, threshold,
supportIdle), the tracking refs (previousY, scrollStartY,
isUserScrolling) and whether an idle timeout is currently armed
(scrollTimeoutRef holding a live timer). -/
structure ProviderState where
  scrollY : ℚ
  direction : Direction
  isScrolling : Bool
  threshold : ℚ
  supportIdle : Bool
  previousY : ℚ
  scrollStartY : ℚ
  isUserScrolling : Bool
  timerPending : Bool
deriving DecidableEq, Repr

/-- Library default threshold (DEFAULT_THRESHOLD = 8). -/
def DEFAULT_THRESHOLD : ℚ := 8

/-- Library default idle support (DEFAULT_SUPPORT_IDLE = false). -/
def DEFAULT_SUPPORT_IDLE : Bool := false

/-- Initial provider state: scrollY 0, direction idle, not scrolling,
refs zeroed, no timer armed; threshold and supportIdle come from the
provider props. -/
def initState (threshold : ℚ) (supportIdle : Bool) : ProviderState :=
  { scrollY := 0
    direction := .idle
    isScrolling := false
    threshold := threshold
    supportIdle := supportIdle
    previousY := 0
    scrollStartY := 0
    isUserScrolling := false
    timerPending := false }

/-- Clamp an offset to the valid scroll range:
maxScrollY = max(0, contentHeight - layoutHeight) and
clampedY = max(0, min(currentY, maxScrollY)). -/
def clampQ (contentHeight viewportHeight offsetY : ℚ) : ℚ :=
  max 0 (min offsetY (max 0 (contentHeight - viewportHeight)))

/-- Clamped offset of a sample. -/
def clampOffset (e : ScrollSample) : ℚ :=
  clampQ e.contentHeight e.viewportHeight e.offsetY

/-- Gesture-start anchor after the first-sample initialisation: when the
user was not scrolling yet, scrollStartYRef is set to the clamped
offset. -/
def startAfterInit (s : ProviderState) (clampedY : ℚ) : ℚ :=
  if s.isUserScrolling then s.scrollStartY else clampedY

/-- Reversal predicate on the running total delta and the per-frame
delta: was scrolling down and now up, was scrolling up and now down, or
just started moving from a zero total. -/
def isReversal (currentTotalDelta deltaY : ℚ) : Prop :=
  (0 < currentTotalDelta ∧ deltaY < 0) ∨
    (currentTotalDelta < 0 ∧ 0 < deltaY) ∨
    (currentTotalDelta = 0 ∧ 0 < |deltaY|)

instance (ctd dy : ℚ) : Decidable (isReversal ctd dy) := by
  unfold isReversal; infer_instance

/-- Gesture-start anchor after processing a sample: initialised on the
first sample of a gesture, then reset to the clamped offset when a
reversal is detected. -/
def startAfterReversal (s : ProviderState) (e : ScrollSample) : ℚ :=
  let c := clampOffset e
  let deltaY := c - s.previousY
  let st0 := startAfterInit s c
  if isReversal (c - st0) deltaY then c else st0

/-- Total delta of a sample: clamped offset minus the gesture-start
anchor, taken after clamping and after any reversal reset. -/
def totalDeltaOf (s : ProviderState) (e : ScrollSample) : ℚ :=
  clampOffset e - startAfterReversal s e

/-- Direction classification: a positive total delta yields down, a
total delta below minus the threshold yields up, otherwise the previous
direction is kept (newDirection stays null and directionShared is not
written). -/
def classifyDirection (totalDelta threshold : ℚ) (prev : Direction) : Direction :=
  if 0 < totalDelta then .down
  else if totalDelta < -threshold then .up
  else prev

/-- The onScroll handler of MotionifyProvider: clamps the offset,
publishes it to scrollY, initialises the gesture on the first sample,
detects reversals, re-arms the idle timer when supportIdle is on, and
classifies the direction from the total delta. -/
def onScroll (s : ProviderState) (e : ScrollSample) : ProviderState :=
  let c := clampOffset e
  let start1 := startAfterReversal s e
  { s with
    scrollY := c
    isUserScrolling := true
    isScrolling := if s.isUserScrolling then s.isScrolling else true
    timerPending := if s.supportIdle then true else s.timerPending
    scrollStartY := start1
    direction := classifyDirection (c - start1) s.threshold s.direction
    previousY := c }

/-- Fold a list of samples through the scroll handler. -/
def runScroll (s : ProviderState) (es : List ScrollSample) : ProviderState :=
  es.foldl onScroll s

/-- Build a sample from an offset and fixed content and viewport
heights. -/
def mkSample (offsetY contentHeight viewportHeight : ℚ) : ScrollSample :=
  { offsetY := offsetY, contentHeight := contentHeight, viewportHeight := viewportHeight }

/-- setThreshold of MotionifyProvider: accepted only when the new value
is positive, otherwise a no-op. -/
def setThreshold (s : ProviderState) (v : ℚ) : ProviderState :=
  if 0 < v then { s with threshold := v } else s

/-- setSupportIdle of MotionifyProvider: always accepted; touches only
the supportIdle flag. -/
def setSupportIdle (s : ProviderState) (b : Bool) : ProviderState :=
  { s with supportIdle := b }

/-- The idle timeout callback (resetToIdle scheduled by
resetScrollTimeout): when a timer is pending it fires, clearing the
user-scrolling ref, forcing direction idle and isScrolling false. -/
def timerFireStep (s : ProviderState) : ProviderState :=
  if s.timerPending then
    { s with
      timerPending := false
      isUserScrolling := false
      direction := .idle
      isScrolling := false }
  else s

/-- The events that mutate provider state at runtime. -/
inductive MotionEvent where
  | scroll (e : ScrollSample)
  | timerFire
  | setThresholdE (v : ℚ)
  | setSupportIdleE (b : Bool)

/-- Apply one runtime event to the provider state. -/
def applyEvent (s : ProviderState) : MotionEvent → ProviderState
  | .scroll e => onScroll s e
  | .timerFire => timerFireStep s
  | .setThresholdE v => setThreshold s v
  | .setSupportIdleE b => setSupportIdle s b

/-- Run a list of runtime events from a state. -/
def runEvents (s : ProviderState) (es : List MotionEvent) : ProviderState :=
  es.foldl applyEvent s

/-- Claim C1: for every scroll sample, the new direction is computed
from the total delta taken after clamping and after any reversal reset
of the gesture-start anchor: a positive total delta yields down, a
total delta below minus the threshold yields up, and otherwise the
direction holds its previous value. -/
theorem C1_classification_rule (s : ProviderState) (e : ScrollSample) :
    (onScroll s e).direction =
      (if 0 < totalDeltaOf s e then Direction.down
       else if totalDeltaOf s e < -s.threshold then Direction.up
       else s.direction) := rfl

/-!
Trace of the reversal test: offsets 0, 50, 100, 90, 80 with threshold 8
and bounds so large that no offset is clamped (content 10000, viewport
100).  The states below are computed step by step from onScroll.
-/

/-- State after feeding offset 0 from a fresh provider. -/
def c2State1 : ProviderState :=
  { scrollY := 0, direction := .idle, isScrolling := true, threshold := 8,
    supportIdle := false, previousY := 0, scrollStartY := 0,
    isUserScrolling := true, timerPending := false }

/-- State after offsets 0, 50. -/
def c2State2 : ProviderState :=
  { scrollY := 50, direction := .down, isScrolling := true, threshold := 8,
    supportIdle := false, previousY := 50, scrollStartY := 0,
    isUserScrolling := true, timerPending := false }

/-- State after offsets 0, 50, 100. -/
def c2State3 : ProviderState :=
  { scrollY := 100, direction := .down, isScrolling := true, threshold := 8,
    supportIdle := false, previousY := 100, scrollStartY := 0,
    isUserScrolling := true, timerPending := false }

/-- State after offsets 0, 50, 100, 90: the reversal at 90 resets the
anchor to the current clamped offset 90 (not to the peak 100), the
total delta is 0 and the direction holds down. -/
def c2State4 : ProviderState :=
  { scrollY := 90, direction := .down, isScrolling := true, threshold := 8,
    supportIdle := false, previousY := 90, scrollStartY := 90,
    isUserScrolling := true, timerPending := false }

/-- State after offsets 0, 50, 100, 90, 80: total delta 80 - 90 = -10
is below -8, so the direction flips to up. -/
def c2State5 : ProviderState :=
  { scrollY := 80, direction := .up, isScrolling := true, threshold := 8,
    supportIdle := false, previousY := 80, scrollStartY := 90,
    isUserScrolling := true, timerPending := false }

lemma c2_step1 : onScroll (initState 8 false) (mkSample 0 10000 100) = c2State1 := by
  norm_num [onScroll, initState, clampOffset, clampQ, startAfterReversal,
    startAfterInit, isReversal, classifyDirection, mkSample, c2State1]

lemma c2_step2 : onScroll c2State1 (mkSample 50 10000 100) = c2State2 := by
  norm_num [onScroll, clampOffset, clampQ, startAfterReversal,
    startAfterInit, isReversal, classifyDirection, mkSample, c2State1, c2State2]

lemma c2_step3 : onScroll c2State2 (mkSample 100 10000 100) = c2State3 := by
  norm_num [onScroll, clampOffset, clampQ, startAfterReversal,
    startAfterInit, isReversal, classifyDirection, mkSample, c2State2, c2State3]

lemma c2_step4 : onScroll c2State3 (mkSample 90 10000 100) = c2State4 := by
  norm_num [onScroll, clampOffset, clampQ, startAfterReversal,
    startAfterInit, isReversal, classifyDirection, mkSample, c2State3, c2State4]

lemma c2_step5 : onScroll c2State4 (mkSample 80 10000 100) = c2State5 := by
  norm_num [onScroll, clampOffset, clampQ, startAfterReversal,
    startAfterInit, isReversal, classifyDirection, mkSample, c2State4, c2State5]

/-- Claim C2, counterexample: feeding offsets 0, 50, 100, 90 with
threshold 8 and unclamped bounds, the reversal at the sample with
offset 90 resets the gesture-start anchor to 90, not to the peak 100,
and the direction at that sample is down, not up. -/
theorem C2_reversal_counterexample :
    (runScroll (initState 8 false)
        [mkSample 0 10000 100, mkSample 50 10000 100, mkSample 100 10000 100,
          mkSample 90 10000 100]).scrollStartY = 90 ∧
    (runScroll (initState 8 false)
        [mkSample 0 10000 100, mkSample 50 10000 100, mkSample 100 10000 100,
          mkSample 90 10000 100]).scrollStartY ≠ 100 ∧
    (runScroll (initState 8 false)
        [mkSample 0 10000 100, mkSample 50 10000 100, mkSample 100 10000 100,
          mkSample 90 10000 100]).direction = .down ∧
    (runScroll (initState 8 false)
        [mkSample 0 10000 100, mkSample 50 10000 100, mkSample 100 10000 100,
          mkSample 90 10000 100]).direction ≠ .up := by
  have h : runScroll (initState 8 false)
      [mkSample 0 10000 100, mkSample 50 10000 100, mkSample 100 10000 100,
        mkSample 90 10000 100] = c2State4 := by
    simp only [runScroll, List.foldl_cons, List.foldl_nil,
      c2_step1, c2_step2, c2_step3, c2_step4]
  rw [h]
  refine ⟨rfl, by norm_num [c2State4], rfl, by simp [c2State4]⟩

/-- Claim C2, amended: feeding offsets 0, 50, 100, 90, 80 with
threshold 8 and unclamped bounds from a fresh provider yields idle at
the first sample and down at 50 and 100; at the sample with offset 90 a
reversal is detected and the gesture-start anchor is reset to 90 (the
current clamped offset), the total delta is 0 and the direction holds
down; at the final sample with offset 80 the total delta is -10 < -8
and the classifier reports up. -/
theorem C2_reversal_amended :
    (runScroll (initState 8 false) [mkSample 0 10000 100]).direction = .idle ∧
    (runScroll (initState 8 false)
        [mkSample 0 10000 100, mkSample 50 10000 100]).direction = .down ∧
    (runScroll (initState 8 false)
        [mkSample 0 10000 100, mkSample 50 10000 100,
          mkSample 100 10000 100]).direction = .down ∧
    (runScroll (initState 8 false)
        [mkSample 0 10000 100, mkSample 50 10000 100, mkSample 100 10000 100,
          mkSample 90 10000 100]).direction = .down ∧
    (runScroll (initState 8 false)
        [mkSample 0 10000 100, mkSample 50 10000 100, mkSample 100 10000 100,
          mkSample 90 10000 100]).scrollStartY = 90 ∧
    totalDeltaOf c2State3 (mkSample 90 10000 100) = 0 ∧
    totalDeltaOf c2State4 (mkSample 80 10000 100) = -10 ∧
    (runScroll (initState 8 false)
        [mkSample 0 10000 100, mkSample 50 10000 100, mkSample 100 10000 100,
          mkSample 90 10000 100, mkSample 80 10000 100]).direction = .up := by
  simp only [runScroll, List.foldl_cons, List.foldl_nil,
    c2_step1, c2_step2, c2_step3, c2_step4, c2_step5]
  refine ⟨rfl, rfl, rfl, rfl, rfl, ?_, ?_, rfl⟩
  · norm_num [totalDeltaOf, clampOffset, clampQ, startAfterReversal,
      startAfterInit, isReversal, mkSample, c2State3]
  · norm_num [totalDeltaOf, clampOffset, clampQ, startAfterReversal,
      startAfterInit, isReversal, mkSample, c2State4]

/-- Claim C3, counterexample: two samples with strictly increasing
offsetY (100 then 200) but a shrinking contentHeight: the second sample
clamps to 0, the total delta is -100 < -8 and the classifier reports
up even though the raw offsets only ever increased. -/
theorem C3_increasing_counterexample :
    (mkSample 100 1000 100).offsetY < (mkSample 200 100 100).offsetY ∧
    (runScroll (initState 8 false)
        [mkSample 100 1000 100, mkSample 200 100 100]).direction = .up := by
  constructor
  · norm_num [mkSample]
  · have h1 : onScroll (initState 8 false) (mkSample 100 1000 100) =
        { scrollY := 100, direction := .idle, isScrolling := true, threshold := 8,
          supportIdle := false, previousY := 100, scrollStartY := 100,
          isUserScrolling := true, timerPending := false } := by
      norm_num [onScroll, initState, clampOffset, clampQ, startAfterReversal,
        startAfterInit, isReversal, classifyDirection, mkSample]
    have h2 : onScroll
        ({ scrollY := 100, direction := .idle, isScrolling := true, threshold := 8,
           supportIdle := false, previousY := 100, scrollStartY := 100,
           isUserScrolling := true, timerPending := false } : ProviderState)
        (mkSample 200 100 100) =
        { scrollY := 0, direction := .up, isScrolling := true, threshold := 8,
          supportIdle := false, previousY := 0, scrollStartY := 100,
          isUserScrolling := true, timerPending := false } := by
      norm_num [onScroll, clampOffset, clampQ, startAfterReversal,
        startAfterInit, isReversal, classifyDirection, mkSample]
    simp only [runScroll, List.foldl_cons, List.foldl_nil, h1, h2]

/-- Claim C4: the offset published to the shared scroll state after a
sample always lies between 0 and max 0 (contentHeight - viewportHeight),
and when contentHeight is at most viewportHeight it is exactly 0. -/
theorem C4_published_offset_clamped (s : ProviderState) (e : ScrollSample) :
    (0 ≤ (onScroll s e).scrollY ∧
      (onScroll s e).scrollY ≤ max 0 (e.contentHeight - e.viewportHeight)) ∧
    (e.contentHeight ≤ e.viewportHeight → (onScroll s e).scrollY = 0) := by
  have hy : (onScroll s e).scrollY = clampOffset e := rfl
  refine ⟨⟨?_, ?_⟩, ?_⟩
  · rw [hy]; exact le_max_left _ _
  · rw [hy]
    exact max_le (le_max_left _ _) (min_le_right _ _)
  · intro h
    rw [hy]
    have hm : max 0 (e.contentHeight - e.viewportHeight) = 0 :=
      max_eq_left (sub_nonpos.mpr h)
    unfold clampOffset clampQ
    rw [hm]
    exact le_antisymm (max_le le_rfl (min_le_right _ _)) (le_max_left _ _)

/-- Witness for claim C4 at a concrete degenerate sample: content 100
not exceeding viewport 200 forces the published offset to 0. -/
theorem C4_published_offset_clamped_witness :
    (onScroll (initState 8 false) (mkSample 37 100 200)).scrollY = 0 :=
  (C4_published_offset_clamped (initState 8 false) (mkSample 37 100 200)).2
    (by norm_num [mkSample])

/-- Claim C7: setThreshold with a positive value stores that value, and
with a nonpositive value it is a defined no-op leaving the whole state
unchanged. -/
theorem C7_setThreshold_validation (s : ProviderState) (v : ℚ) :
    (0 < v → setThreshold s v = { s with threshold := v }) ∧
    (v ≤ 0 → setThreshold s v = s) := by
  constructor
  · intro h
    simp [setThreshold, h]
  · intro h
    simp [setThreshold, not_lt.mpr h]

/-- Witness for claim C7: updating the default provider state with 15
stores 15, and updating with -3 or 0 leaves the state untouched. -/
theorem C7_setThreshold_validation_witness :
    setThreshold (initState 8 false) 15 =
      { initState 8 false with threshold := 15 } ∧
    setThreshold (initState 8 false) (-3) = initState 8 false ∧
    setThreshold (initState 8 false) 0 = initState 8 false :=
  ⟨(C7_setThreshold_validation (initState 8 false) 15).1 (by norm_num),
    (C7_setThreshold_validation (initState 8 false) (-3)).2 (by norm_num),
    (C7_setThreshold_validation (initState 8 false) 0).2 le_rfl⟩

/-- Invariant relating the user-scrolling ref, the published
isScrolling flag and the direction: the ref mirrors the flag, and when
the provider is not scrolling the direction is idle. -/
def IdleInv (s : ProviderState) : Prop :=
  s.isUserScrolling = s.isScrolling ∧ (s.isScrolling = false → s.direction = .idle)

lemma idleInv_applyEvent (s : ProviderState) (ev : MotionEvent) (h : IdleInv s) :
    IdleInv (applyEvent s ev) := by
  obtain ⟨h1, h2⟩ := h
  cases ev with
  | scroll e =>
      cases hu : s.isUserScrolling with
      | false =>
          exact ⟨by simp [applyEvent, onScroll, hu], by simp [applyEvent, onScroll, hu]⟩
      | true =>
          have hs : s.isScrolling = true := by rw [← h1, hu]
          exact ⟨by simp [applyEvent, onScroll, hu, hs],
            by simp [applyEvent, onScroll, hu, hs]⟩
  | timerFire =>
      by_cases hp : s.timerPending = true
      · exact ⟨by simp [applyEvent, timerFireStep, hp],
          by simp [applyEvent, timerFireStep, hp]⟩
      · have hne : ¬ s.timerPending := by simpa using hp
        exact ⟨by simp [applyEvent, timerFireStep, hne, h1],
          by simpa [applyEvent, timerFireStep, hne] using h2⟩
  | setThresholdE v =>
      by_cases hv : 0 < v
      · exact ⟨by simp [applyEvent, setThreshold, hv, h1],
          by simpa [applyEvent, setThreshold, hv] using h2⟩
      · exact ⟨by simp [applyEvent, setThreshold, hv, h1],
          by simpa [applyEvent, setThreshold, hv] using h2⟩
  | setSupportIdleE b =>
      exact ⟨by simp [applyEvent, setSupportIdle, h1],
        by simpa [applyEvent, setSupportIdle] using h2⟩

lemma idleInv_runEvents (es : List MotionEvent) (s : ProviderState) (h : IdleInv s) :
    IdleInv (runEvents s es) := by
  induction es generalizing s with
  | nil => exact h
  | cons ev rest ih =>
      have hstep : runEvents s (ev :: rest) = runEvents (applyEvent s ev) rest := by
        simp [runEvents]
      rw [hstep]
      exact ih _ (idleInv_applyEvent s ev h)

/-- Claim C5: in every state of the provider reachable by scroll
samples, timer firings and setter calls, having supportIdle enabled and
isScrolling false forces the direction to be idle; the initial state
satisfies it, a scroll sample sets isScrolling true before publishing
any non-idle direction, and the idle timeout sets direction idle and
isScrolling false together. -/
theorem C5_idle_invariant (t0 : ℚ) (b0 : Bool) (es : List MotionEvent)
    (_hidle : (runEvents (initState t0 b0) es).supportIdle = true)
    (hns : (runEvents (initState t0 b0) es).isScrolling = false) :
    (runEvents (initState t0 b0) es).direction = .idle :=
  (idleInv_runEvents es (initState t0 b0) ⟨rfl, fun _ => rfl⟩).2 hns

/-- Witness for claim C5: the freshly initialised provider with
supportIdle enabled is reachable, is not scrolling, and its direction
is idle. -/
theorem C5_idle_invariant_witness :
    (runEvents (initState 8 true) []).direction = .idle :=
  C5_idle_invariant 8 true [] rfl rfl

/-!
Trace for the setSupportIdle claim: with supportIdle enabled, feed
offsets 50 then 100 (arming the idle timer and moving to down), then
call setSupportIdle false, then let the armed timer fire.
-/

/-- State after offset 50 from a fresh provider with supportIdle on:
the first sample only starts the gesture, total delta 0 keeps idle, and
the idle timer is armed. -/
def c6State1 : ProviderState :=
  { scrollY := 50, direction := .idle, isScrolling := true, threshold := 8,
    supportIdle := true, previousY := 50, scrollStartY := 50,
    isUserScrolling := true, timerPending := true }

/-- State after offsets 50, 100: direction down, timer re-armed. -/
def c6State2 : ProviderState :=
  { scrollY := 100, direction := .down, isScrolling := true, threshold := 8,
    supportIdle := true, previousY := 100, scrollStartY := 50,
    isUserScrolling := true, timerPending := true }

lemma c6_step1 : onScroll (initState 8 true) (mkSample 50 10000 100) = c6State1 := by
  norm_num [onScroll, initState, clampOffset, clampQ, startAfterReversal,
    startAfterInit, isReversal, classifyDirection, mkSample, c6State1]

lemma c6_step2 : onScroll c6State1 (mkSample 100 10000 100) = c6State2 := by
  norm_num [onScroll, clampOffset, clampQ, startAfterReversal,
    startAfterInit, isReversal, classifyDirection, mkSample, c6State1, c6State2]

/-- Claim C6, counterexample: with supportIdle enabled, scroll to
direction down with an idle timer pending, then call
setSupportIdle false: the pending timer is not cancelled, and when it
subsequently fires it forces direction idle, contradicting the claim
that no subsequent timer firing forces idle. -/
theorem C6_pending_timer_counterexample :
    (runEvents (initState 8 true)
        [.scroll (mkSample 50 10000 100), .scroll (mkSample 100 10000 100),
          .setSupportIdleE false]).timerPending = true ∧
    (runEvents (initState 8 true)
        [.scroll (mkSample 50 10000 100), .scroll (mkSample 100 10000 100),
          .setSupportIdleE false]).direction = .down ∧
    (runEvents (initState 8 true)
        [.scroll (mkSample 50 10000 100), .scroll (mkSample 100 10000 100),
          .setSupportIdleE false, .timerFire]).direction = .idle ∧
    (runEvents (initState 8 true)
        [.scroll (mkSample 50 10000 100), .scroll (mkSample 100 10000 100),
          .setSupportIdleE false, .timerFire]).isScrolling = false := by
  have h3 : runEvents (initState 8 true)
      [.scroll (mkSample 50 10000 100), .scroll (mkSample 100 10000 100),
        .setSupportIdleE false] =
      { c6State2 with supportIdle := false } := by
    simp only [runEvents, List.foldl_cons, List.foldl_nil, applyEvent,
      c6_step1, c6_step2]
    rfl
  have h4 : runEvents (initState 8 true)
      [.scroll (mkSample 50 10000 100), .scroll (mkSample 100 10000 100),
        .setSupportIdleE false, .timerFire] =
      timerFireStep { c6State2 with supportIdle := false } := by
    simp only [runEvents, List.foldl_cons, List.foldl_nil, applyEvent,
      c6_step1, c6_step2]
    rfl
  refine ⟨by rw [h3]; rfl, by rw [h3]; rfl, ?_, ?_⟩
  · rw [h4]; simp [timerFireStep, c6State2]
  · rw [h4]; simp [timerFireStep, c6State2]

/-- Claim C6, amended: setSupportIdle false changes only the
supportIdle flag and does not itself change direction, isScrolling, or
any other scroll state, but it does not cancel a pending idle timer: a
timer that was already armed still fires and forces direction idle and
isScrolling false; samples processed while supportIdle is false arm no
new timer. -/
theorem C6_setSupportIdle_amended (s : ProviderState) :
    setSupportIdle s false = { s with supportIdle := false } ∧
    (s.timerPending = true →
      (timerFireStep (setSupportIdle s false)).direction = .idle ∧
      (timerFireStep (setSupportIdle s false)).isScrolling = false) ∧
    ∀ e : ScrollSample, (onScroll (setSupportIdle s false) e).timerPending = s.timerPending := by
  refine ⟨rfl, ?_, ?_⟩
  · intro hp
    exact ⟨by simp [timerFireStep, setSupportIdle, hp],
      by simp [timerFireStep, setSupportIdle, hp]⟩
  · intro e
    simp [onScroll, setSupportIdle]

/-- Witness for the amended claim C6 at a state with a pending timer:
after setSupportIdle false the firing timer still resets to idle. -/
theorem C6_setSupportIdle_amended_witness :
    (timerFireStep (setSupportIdle { initState 8 true with timerPending := true } false)).direction = .idle ∧
    (timerFireStep (setSupportIdle { initState 8 true with timerPending := true } false)).isScrolling = false :=
  (C6_setSupportIdle_amended { initState 8 true with timerPending := true }).2.1 rfl

/-!
Monotone-scroll development: with a fixed content and viewport height,
clamping is monotone in the offset, and an increasing run of samples
keeps the gesture anchor at or below the previous offset, so the total
delta never goes negative and the classifier can never report up.
-/

lemma clampQ_nonneg (ch vh o : ℚ) : 0 ≤ clampQ ch vh o := le_max_left _ _

lemma clampQ_mono (ch vh : ℚ) {o1 o2 : ℚ} (h : o1 ≤ o2) :
    clampQ ch vh o1 ≤ clampQ ch vh o2 :=
  max_le_max le_rfl (min_le_min h le_rfl)

lemma startAfterReversal_le (s : ProviderState) (e : ScrollSample)
    (hstart : s.scrollStartY ≤ s.previousY)
    (hprev : s.previousY ≤ clampOffset e) :
    startAfterReversal s e ≤ clampOffset e := by
  have hst0 : startAfterInit s (clampOffset e) ≤ clampOffset e := by
    unfold startAfterInit
    split
    · exact hstart.trans hprev
    · exact le_rfl
  show (if isReversal (clampOffset e - startAfterInit s (clampOffset e))
      (clampOffset e - s.previousY) then clampOffset e
    else startAfterInit s (clampOffset e)) ≤ clampOffset e
  split
  · exact le_rfl
  · exact hst0

lemma onScroll_mono_step (s : ProviderState) (e : ScrollSample)
    (hstart : s.scrollStartY ≤ s.previousY)
    (hth : 0 ≤ s.threshold)
    (hprev : s.previousY ≤ clampOffset e) :
    0 ≤ totalDeltaOf s e ∧
    (onScroll s e).direction =
      (if 0 < totalDeltaOf s e then Direction.down else s.direction) ∧
    (onScroll s e).scrollStartY ≤ (onScroll s e).previousY ∧
    (onScroll s e).previousY = clampOffset e ∧
    (onScroll s e).threshold = s.threshold := by
  have hs1 := startAfterReversal_le s e hstart hprev
  have htd : 0 ≤ totalDeltaOf s e := sub_nonneg.mpr hs1
  refine ⟨htd, ?_, hs1, rfl, rfl⟩
  show classifyDirection (totalDeltaOf s e) s.threshold s.direction = _
  unfold classifyDirection
  by_cases h : 0 < totalDeltaOf s e
  · simp [h]
  · have hnu : ¬ totalDeltaOf s e < -s.threshold := by
      push_neg
      calc -s.threshold ≤ 0 := neg_nonpos.mpr hth
        _ ≤ totalDeltaOf s e := htd
    simp [h, hnu]

lemma runScroll_master (ch vh : ℚ) (offs : List ℚ) :
    ∀ s : ProviderState,
      s.scrollStartY ≤ s.previousY → 0 ≤ s.threshold →
      (∀ o ∈ offs, s.previousY ≤ clampQ ch vh o) →
      offs.Pairwise (· < ·) →
      (runScroll s (offs.map (fun o => mkSample o ch vh))).scrollStartY ≤
        (runScroll s (offs.map (fun o => mkSample o ch vh))).previousY ∧
      (runScroll s (offs.map (fun o => mkSample o ch vh))).threshold = s.threshold ∧
      ((runScroll s (offs.map (fun o => mkSample o ch vh))).previousY = s.previousY ∨
        ∃ o ∈ offs,
          (runScroll s (offs.map (fun o => mkSample o ch vh))).previousY = clampQ ch vh o) ∧
      ((runScroll s (offs.map (fun o => mkSample o ch vh))).direction = s.direction ∨
        (runScroll s (offs.map (fun o => mkSample o ch vh))).direction = .down) := by
  induction offs with
  | nil =>
      intro s h1 _ _ _
      exact ⟨h1, rfl, Or.inl rfl, Or.inl rfl⟩
  | cons o rest ih =>
      intro s h1 h2 hmem hpw
      have hco : clampOffset (mkSample o ch vh) = clampQ ch vh o := rfl
      have hprev : s.previousY ≤ clampOffset (mkSample o ch vh) := by
        rw [hco]; exact hmem o (by simp)
      obtain ⟨htd, hdir1, hss1, hpv1, hth1⟩ :=
        onScroll_mono_step s (mkSample o ch vh) h1 h2 hprev
      rw [List.pairwise_cons] at hpw
      obtain ⟨hlt, hpwrest⟩ := hpw
      have hrun : runScroll s ((o :: rest).map (fun o => mkSample o ch vh)) =
          runScroll (onScroll s (mkSample o ch vh)) (rest.map (fun o => mkSample o ch vh)) := by
        simp [runScroll]
      have hmem1 : ∀ o2 ∈ rest, (onScroll s (mkSample o ch vh)).previousY ≤ clampQ ch vh o2 := by
        intro o2 h2m
        rw [hpv1, hco]
        exact clampQ_mono ch vh (le_of_lt (hlt o2 h2m))
      obtain ⟨i1, i2, i3, i4⟩ := ih (onScroll s (mkSample o ch vh)) hss1
        (hth1 ▸ h2) hmem1 hpwrest
      rw [hrun]
      refine ⟨i1, i2.trans hth1, ?_, ?_⟩
      · rcases i3 with h | ⟨o2, ho2, h⟩
        · exact Or.inr ⟨o, by simp, by rw [h, hpv1, hco]⟩
        · exact Or.inr ⟨o2, by simp [ho2], h⟩
      · rcases i4 with h | h
        · rw [h, hdir1]
          by_cases hc : 0 < totalDeltaOf s (mkSample o ch vh)
          · simp [hc]
          · simp [hc]
        · exact Or.inr h

/-- Claim C3, amended: for samples that share a common contentHeight
and viewportHeight, with a strictly increasing offset sequence and a
nonnegative initial threshold, the direction never takes the value up
at any prefix of the run, and whenever some sample produces a positive
total delta, the direction is down right after it and stays down
through any further samples of the sequence. -/
theorem C3_increasing_amended (ch vh t : ℚ) (b : Bool) (offs : List ℚ)
    (ht : 0 ≤ t) (hinc : offs.Chain' (· < ·)) :
    (∀ pre suf, offs = pre ++ suf →
      (runScroll (initState t b)
        (pre.map (fun o => mkSample o ch vh))).direction ≠ .up) ∧
    (∀ pre o2 mid rest, offs = pre ++ o2 :: (mid ++ rest) →
      0 < totalDeltaOf (runScroll (initState t b)
          (pre.map (fun o => mkSample o ch vh))) (mkSample o2 ch vh) →
      (runScroll (initState t b)
        ((pre ++ o2 :: mid).map (fun o => mkSample o ch vh))).direction = .down) := by
  have hpw : offs.Pairwise (· < ·) := List.chain'_iff_pairwise.mp hinc
  constructor
  · intro pre suf hsplit
    have hpwpre : pre.Pairwise (· < ·) := by
      rw [hsplit, List.pairwise_append] at hpw
      exact hpw.1
    have hmem : ∀ o ∈ pre, (initState t b).previousY ≤ clampQ ch vh o := by
      intro o _
      exact clampQ_nonneg ch vh o
    obtain ⟨-, -, -, hdir⟩ := runScroll_master ch vh pre (initState t b) le_rfl ht hmem hpwpre
    rcases hdir with h | h <;> rw [h] <;> simp [initState]
  · intro pre o2 mid rest hsplit htdpos
    rw [hsplit, List.pairwise_append] at hpw
    obtain ⟨hpwpre, hpwtail, hcross⟩ := hpw
    rw [List.pairwise_cons] at hpwtail
    obtain ⟨hlt2, hpwmr⟩ := hpwtail
    have hmem : ∀ o ∈ pre, (initState t b).previousY ≤ clampQ ch vh o := by
      intro o _
      exact clampQ_nonneg ch vh o
    obtain ⟨m1, m2, m3, -⟩ := runScroll_master ch vh pre (initState t b) le_rfl ht hmem hpwpre
    set sPre := runScroll (initState t b) (pre.map (fun o => mkSample o ch vh)) with hsPre
    have hprev2 : sPre.previousY ≤ clampOffset (mkSample o2 ch vh) := by
      show sPre.previousY ≤ clampQ ch vh o2
      rcases m3 with h | ⟨o3, ho3, h⟩
      · rw [h]
        exact clampQ_nonneg ch vh o2
      · rw [h]
        exact clampQ_mono ch vh (le_of_lt (hcross o3 ho3 o2 (by simp)))
    have hth2 : 0 ≤ sPre.threshold := m2 ▸ ht
    obtain ⟨-, hdir1, hss1, hpv1, hth1⟩ :=
      onScroll_mono_step sPre (mkSample o2 ch vh) m1 hth2 hprev2
    have hdown1 : (onScroll sPre (mkSample o2 ch vh)).direction = .down := by
      rw [hdir1, if_pos htdpos]
    have hmemmid : ∀ o3 ∈ mid,
        (onScroll sPre (mkSample o2 ch vh)).previousY ≤ clampQ ch vh o3 := by
      intro o3 ho3
      rw [hpv1]
      show clampQ ch vh o2 ≤ clampQ ch vh o3
      exact clampQ_mono ch vh (le_of_lt (hlt2 o3 (List.mem_append_left rest ho3)))
    have hpwmid : mid.Pairwise (· < ·) := by
      rw [List.pairwise_append] at hpwmr
      exact hpwmr.1
    obtain ⟨-, -, -, hdir2⟩ := runScroll_master ch vh mid (onScroll sPre (mkSample o2 ch vh))
      hss1 (hth1 ▸ hth2) hmemmid hpwmid
    have hrw : runScroll (initState t b) ((pre ++ o2 :: mid).map (fun o => mkSample o ch vh)) =
        runScroll (onScroll sPre (mkSample o2 ch vh)) (mid.map (fun o => mkSample o ch vh)) := by
      rw [hsPre]
      simp [runScroll, List.map_append, List.foldl_append]
    rw [hrw]
    rcases hdir2 with h | h
    · rw [h, hdown1]
    · exact h

/-- Witness for the amended claim C3: offsets 0, 50, 100 with fixed
bounds never report up, and after the positive total delta at the
sample with offset 50 the run ends in direction down. -/
theorem C3_increasing_amended_witness :
    (runScroll (initState 8 false)
        ([0, 50, 100].map (fun o => mkSample o 1000 100))).direction ≠ .up ∧
    (runScroll (initState 8 false)
        ([0, 50, 100].map (fun o => mkSample o 1000 100))).direction = .down := by
  have h := C3_increasing_amended 1000 100 8 false [0, 50, 100] (by norm_num)
    (by simp [List.chain'_cons]; norm_num)
  refine ⟨h.1 [0, 50, 100] [] rfl, ?_⟩
  have h2 := h.2 [0] 50 [100] [] rfl
  have htd : 0 < totalDeltaOf (runScroll (initState 8 false)
      ([0].map (fun o => mkSample o 1000 100))) (mkSample 50 1000 100) := by
    have hx : runScroll (initState 8 false) ([0].map (fun o => mkSample o 1000 100)) =
        { scrollY := 0, direction := .idle, isScrolling := true, threshold := 8,
          supportIdle := false, previousY := 0, scrollStartY := 0,
          isUserScrolling := true, timerPending := false } := by
      norm_num [runScroll, onScroll, initState, clampOffset, clampQ, startAfterReversal,
        startAfterInit, isReversal, classifyDirection, mkSample]
    rw [hx]
    norm_num [totalDeltaOf, clampOffset, clampQ, startAfterReversal,
      startAfterInit, isReversal, mkSample]
  exact h2 htd

/-!
Interpolation layer.  The library code builds interpolation
configurations (createInterpolation in utils) and hands them to the
interpolate primitive of react-native-reanimated; that primitive itself
is not part of this repository, so its behaviour is modelled from the
specification of the interpolation engine.
-/

/-- Extrapolation mode of an interpolation configuration: clamp,
extend, or identity. -/
inductive Extrapolate where
  | clamp
  | extend
  | identity
deriving DecidableEq, Repr

/-- An interpolation configuration: input range, output range and the
extrapolation mode.  String-valued angle outputs of the source are out
of scope here; every claim about interpolation concerns numeric
ranges, which the source also casts to plain number arrays before
interpolating. -/
structure InterpolationConfig where
  inputRange : List ℚ
  outputRange : List ℚ
  extrapolate : Extrapolate
deriving DecidableEq, Repr

/-- The createInterpolation helper of the utils module: it builds the
configuration object directly from its arguments, with no checks of
any kind. -/
def createInterpolation (inputRange : List ℚ) (outputRange : List ℚ)
    (extrapolate : Extrapolate) : InterpolationConfig :=
  { inputRange := inputRange, outputRange := outputRange, extrapolate := extrapolate }

/-- Validity of an interpolation specification, as the specification
defines it: input and output ranges of equal length, at least two
breakpoints, strictly increasing input range. -/
def specValidInterpolation (c : InterpolationConfig) : Prop :=
  c.inputRange.length = c.outputRange.length ∧
    2 ≤ c.inputRange.length ∧
    c.inputRange.Chain' (· < ·)

/-- Linear interpolation of one segment: progress is 0 on a degenerate
zero-width segment, otherwise (x - a) / (b - a), and the output is
oa + progress * (ob - oa). -/
def interpSeg (x a b oa ob : ℚ) : ℚ :=
  let p := if b - a = 0 then 0 else (x - a) / (b - a)
  oa + p * (ob - oa)

/-- Bracketing step: walk the breakpoints to the first segment whose
right endpoint is at or beyond the input (falling back to the last
segment when the input lies beyond the final breakpoint, and to the
first when it lies before the first), returning the raw linear output
of that segment together with the segment's output bounds used by
clamp extrapolation. -/
def rawAndBounds (x : ℚ) : List ℚ → List ℚ → ℚ × ℚ × ℚ
  | a :: b :: c :: ins, oa :: ob :: oc :: outs =>
      if x ≤ b then (interpSeg x a b oa ob, min oa ob, max oa ob)
      else rawAndBounds x (b :: c :: ins) (ob :: oc :: outs)
  | a :: b :: _, oa :: ob :: _ => (interpSeg x a b oa ob, min oa ob, max oa ob)
  | _, _ => (x, x, x)

/-- Modelled from the spec: the interpolation engine, standing in for
the interpolate primitive of react-native-reanimated, which is absent
from this repository.  It brackets the input into a segment, computes
the linear output with zero progress on degenerate segments, and when
the input is outside the full input range applies the extrapolation
mode: clamp to the bracketing segment's output bounds, extend the
linear continuation, or return the input unchanged. -/
def interpolateRaw (x : ℚ) (inputRange outputRange : List ℚ) (ex : Extrapolate) : ℚ :=
  match inputRange, outputRange with
  | a :: b :: ins, oa :: ob :: outs =>
      let r := rawAndBounds x (a :: b :: ins) (oa :: ob :: outs)
      if x < a ∨ ins.getLastD b < x then
        match ex with
        | .clamp => min (max r.1 r.2.1) r.2.2
        | .extend => r.1
        | .identity => x
      else r.1
  | _, _ => x

/-- Interpolate an input against a configuration. -/
def interpolateQ (x : ℚ) (c : InterpolationConfig) : ℚ :=
  interpolateRaw x c.inputRange c.outputRange c.extrapolate

lemma chain_le_getLastD (c : ℚ) (ins : List ℚ) (h : List.Chain' (· < ·) (c :: ins)) :
    c ≤ ins.getLastD c := by
  induction ins generalizing c with
  | nil => exact le_rfl
  | cons d ins2 ih =>
      rw [List.chain'_cons] at h
      rw [List.getLastD_cons]
      exact (le_of_lt h.1).trans (ih d h.2)

lemma interpSeg_left (a b oa ob : ℚ) : interpSeg a a b oa ob = oa := by
  unfold interpSeg
  by_cases h : b - a = 0 <;> simp [h]

lemma interpSeg_right (a b oa ob : ℚ) (h : a < b) : interpSeg b a b oa ob = ob := by
  unfold interpSeg
  have hne : b - a ≠ 0 := sub_ne_zero.mpr (ne_of_gt h)
  rw [if_neg hne, div_self hne]
  ring

lemma rawAndBounds_head (ins outs : List ℚ) (a b oa ob : ℚ) (hab : a ≤ b) :
    (rawAndBounds a (a :: b :: ins) (oa :: ob :: outs)).1 = interpSeg a a b oa ob := by
  cases ins with
  | nil => rfl
  | cons c ins2 =>
      cases outs with
      | nil => rfl
      | cons oc outs2 =>
          simp only [rawAndBounds]
          rw [if_pos hab]

lemma rawAndBounds_last (ins : List ℚ) :
    ∀ (outs : List ℚ) (a b oa ob : ℚ), ins.length = outs.length →
      List.Chain' (· < ·) (a :: b :: ins) →
      (rawAndBounds (ins.getLastD b) (a :: b :: ins) (oa :: ob :: outs)).1 =
        outs.getLastD ob := by
  induction ins with
  | nil =>
      intro outs a b oa ob hlen hch
      have houts : outs = [] := List.eq_nil_of_length_eq_zero hlen.symm
      subst houts
      have hab : a < b := (List.chain'_cons.mp hch).1
      show (rawAndBounds b [a, b] [oa, ob]).1 = ob
      show (interpSeg b a b oa ob, min oa ob, max oa ob).1 = ob
      exact interpSeg_right a b oa ob hab
  | cons c ins2 ih =>
      intro outs a b oa ob hlen hch
      cases outs with
      | nil => simp at hlen
      | cons oc outs2 =>
          have hlen2 : ins2.length = outs2.length := by simpa using hlen
          rw [List.chain'_cons] at hch
          obtain ⟨hab, hch2⟩ := hch
          have hbc : b < c := (List.chain'_cons.mp hch2).1
          have hcx : c ≤ ins2.getLastD c :=
            chain_le_getLastD c ins2 (List.chain'_cons.mp hch2).2
          have hnb : ¬ ins2.getLastD c ≤ b := not_le.mpr (lt_of_lt_of_le hbc hcx)
          rw [List.getLastD_cons, List.getLastD_cons]
          simp only [rawAndBounds]
          rw [if_neg hnb]
          exact ih outs2 b c ob oc hlen2 hch2

lemma interpolateRaw_first (a b : ℚ) (ins : List ℚ) (oa ob : ℚ) (outs : List ℚ)
    (ex : Extrapolate) (hch : List.Chain' (· < ·) (a :: b :: ins)) :
    interpolateRaw a (a :: b :: ins) (oa :: ob :: outs) ex = oa := by
  have hab : a < b := (List.chain'_cons.mp hch).1
  have hble : b ≤ ins.getLastD b :=
    chain_le_getLastD b ins (List.chain'_cons.mp hch).2
  have hcond : ¬ (a < a ∨ ins.getLastD b < a) := by
    push_neg
    exact ⟨le_rfl, (le_of_lt hab).trans hble⟩
  simp only [interpolateRaw]
  rw [if_neg hcond, rawAndBounds_head ins outs a b oa ob (le_of_lt hab)]
  exact interpSeg_left a b oa ob

lemma interpolateRaw_last (a b : ℚ) (ins : List ℚ) (oa ob : ℚ) (outs : List ℚ)
    (ex : Extrapolate) (hlen : ins.length = outs.length)
    (hch : List.Chain' (· < ·) (a :: b :: ins)) :
    interpolateRaw (ins.getLastD b) (a :: b :: ins) (oa :: ob :: outs) ex =
      outs.getLastD ob := by
  have hab : a < b := (List.chain'_cons.mp hch).1
  have hble : b ≤ ins.getLastD b :=
    chain_le_getLastD b ins (List.chain'_cons.mp hch).2
  have hcond : ¬ (ins.getLastD b < a ∨ ins.getLastD b < ins.getLastD b) := by
    push_neg
    exact ⟨(le_of_lt hab).trans hble, le_rfl⟩
  simp only [interpolateRaw]
  rw [if_neg hcond]
  exact rawAndBounds_last ins outs a b oa ob hlen hch

/-- Claim C9: for every valid interpolation specification (equal-length
ranges, at least two breakpoints, strictly increasing input range) and
every extrapolation mode, interpolating at the first breakpoint returns
exactly the first output value, and interpolating at the last
breakpoint returns exactly the last output value. -/
theorem C9_endpoint_exactness (c : InterpolationConfig)
    (hlen : c.inputRange.length = c.outputRange.length)
    (hlen2 : 2 ≤ c.inputRange.length)
    (hmono : c.inputRange.Chain' (· < ·)) :
    interpolateQ (c.inputRange.getD 0 0) c = c.outputRange.getD 0 0 ∧
    interpolateQ (c.inputRange.getLastD 0) c = c.outputRange.getLastD 0 := by
  obtain ⟨cin, cout, cex⟩ := c
  simp only at hlen hlen2 hmono
  obtain ⟨a, b, ins, rfl⟩ : ∃ a b ins, cin = a :: b :: ins := by
    cases cin with
    | nil => simp at hlen2
    | cons a tail =>
        cases tail with
        | nil => simp at hlen2
        | cons b ins => exact ⟨a, b, ins, rfl⟩
  obtain ⟨oa, ob, outs, rfl⟩ : ∃ oa ob outs, cout = oa :: ob :: outs := by
    have hlc : 2 ≤ cout.length := hlen ▸ hlen2
    cases cout with
    | nil => simp at hlc
    | cons oa tail =>
        cases tail with
        | nil => simp at hlc
        | cons ob outs => exact ⟨oa, ob, outs, rfl⟩
  have hlen3 : ins.length = outs.length := by simpa using hlen
  constructor
  · show interpolateRaw ((a :: b :: ins).getD 0 0) (a :: b :: ins) (oa :: ob :: outs) cex =
      (oa :: ob :: outs).getD 0 0
    rw [List.getD_cons_zero, List.getD_cons_zero]
    exact interpolateRaw_first a b ins oa ob outs cex hmono
  · show interpolateRaw ((a :: b :: ins).getLastD 0) (a :: b :: ins) (oa :: ob :: outs) cex =
      (oa :: ob :: outs).getLastD 0
    rw [List.getLastD_cons, List.getLastD_cons, List.getLastD_cons, List.getLastD_cons]
    exact interpolateRaw_last a b ins oa ob outs cex hlen3 hmono

/-- Witness for claim C9 on the specification's round-trip example: the
range 0..100 to 0..50 with clamp extrapolation hits 0 and 50 exactly at
the breakpoints. -/
theorem C9_endpoint_exactness_witness :
    interpolateQ 0 (createInterpolation [0, 100] [0, 50] .clamp) = 0 ∧
    interpolateQ 100 (createInterpolation [0, 100] [0, 50] .clamp) = 50 := by
  have h := C9_endpoint_exactness (createInterpolation [0, 100] [0, 50] .clamp)
    (by simp [createInterpolation])
    (by simp [createInterpolation])
    (by simp [createInterpolation, List.chain'_cons])
  simpa [createInterpolation] using h

/-- Claim C8, counterexample: a specification with mismatched range
lengths (one input breakpoint against two outputs) is invalid by the
specification's own criteria, yet createInterpolation constructs it
without any error, returning a usable configuration holding the ranges
verbatim. -/
theorem C8_no_validation_counterexample :
    ¬ specValidInterpolation (createInterpolation [0] [1, 2] .clamp) ∧
    createInterpolation [0] [1, 2] .clamp =
      { inputRange := [0], outputRange := [1, 2], extrapolate := .clamp } := by
  constructor
  · intro h
    obtain ⟨h1, -, -⟩ := h
    simp [createInterpolation] at h1
  · rfl

/-- Claim C8, amended: construction of an interpolation specification
performs no validation and cannot fail: for every input range, output
range and extrapolation mode, including mismatched lengths, fewer than
two breakpoints, or a non-increasing input range, createInterpolation
returns the configuration built verbatim from its arguments, silently
degrading instead of raising a configuration error. -/
theorem C8_no_validation_amended (inputRange outputRange : List ℚ) (ex : Extrapolate) :
    (createInterpolation inputRange outputRange ex).inputRange = inputRange ∧
    (createInterpolation inputRange outputRange ex).outputRange = outputRange ∧
    (createInterpolation inputRange outputRange ex).extrapolate = ex :=
  ⟨rfl, rfl, rfl⟩

/-!
The useMotionify hook.  On mount each of its two effects pushes a
non-default configured value into the provider through the context
setters; each effect registers a cleanup only when its configured value
differs from the library default, and that cleanup writes the default
back on unmount.
-/

/-- Configuration of a useMotionify consumer after destructuring with
the library defaults (threshold 8, supportIdle false). -/
structure MotionifyConfig where
  threshold : ℚ
  supportIdle : Bool
deriving DecidableEq, Repr

/-- Cleanup performed when a useMotionify consumer unmounts: the
threshold effect resets the provider threshold to the default if and
only if this consumer configured a non-default threshold, and the idle
effect resets supportIdle to the default if and only if this consumer
configured a non-default supportIdle. -/
def useMotionifyUnmount (cfg : MotionifyConfig) (s : ProviderState) : ProviderState :=
  let s1 := if cfg.threshold ≠ DEFAULT_THRESHOLD then setThreshold s DEFAULT_THRESHOLD else s
  if cfg.supportIdle ≠ DEFAULT_SUPPORT_IDLE then setSupportIdle s1 DEFAULT_SUPPORT_IDLE else s1

/-- Claim C10, counterexample: a consumer with the non-default
configuration threshold 15 and default supportIdle false unmounts while
the provider (configured by another consumer) has supportIdle true: the
provider threshold is reset to 8, but supportIdle stays true, so it is
not reset to the library default as the claim states. -/
theorem C10_unmount_counterexample :
    ({ threshold := 15, supportIdle := false } : MotionifyConfig) ≠
      { threshold := DEFAULT_THRESHOLD, supportIdle := DEFAULT_SUPPORT_IDLE } ∧
    (useMotionifyUnmount { threshold := 15, supportIdle := false }
        (initState 15 true)).threshold = 8 ∧
    (useMotionifyUnmount { threshold := 15, supportIdle := false }
        (initState 15 true)).supportIdle = true := by
  refine ⟨?_, ?_, ?_⟩
  · intro h
    have := congrArg MotionifyConfig.threshold h
    norm_num [DEFAULT_THRESHOLD] at this
  · norm_num [useMotionifyUnmount, setThreshold, setSupportIdle,
      DEFAULT_THRESHOLD, DEFAULT_SUPPORT_IDLE, initState]
  · norm_num [useMotionifyUnmount, setThreshold, setSupportIdle,
      DEFAULT_THRESHOLD, DEFAULT_SUPPORT_IDLE, initState]

/-- Claim C10, amended: on unmount of a useMotionify consumer each
non-default setting is reset individually, regardless of what other
still-mounted consumers configured: a non-default configured threshold
is reset to the default 8 and a non-default configured supportIdle is
reset to the default false, while a setting the consumer left at its
default is not touched at all. -/
theorem C10_unmount_amended (cfg : MotionifyConfig) (s : ProviderState) :
    (cfg.threshold ≠ DEFAULT_THRESHOLD →
      (useMotionifyUnmount cfg s).threshold = DEFAULT_THRESHOLD) ∧
    (cfg.threshold = DEFAULT_THRESHOLD →
      (useMotionifyUnmount cfg s).threshold = s.threshold) ∧
    (cfg.supportIdle ≠ DEFAULT_SUPPORT_IDLE →
      (useMotionifyUnmount cfg s).supportIdle = DEFAULT_SUPPORT_IDLE) ∧
    (cfg.supportIdle = DEFAULT_SUPPORT_IDLE →
      (useMotionifyUnmount cfg s).supportIdle = s.supportIdle) := by
  have h8 : (0 : ℚ) < DEFAULT_THRESHOLD := by norm_num [DEFAULT_THRESHOLD]
  by_cases ht : cfg.threshold = DEFAULT_THRESHOLD <;>
    by_cases hi : cfg.supportIdle = DEFAULT_SUPPORT_IDLE <;>
    refine ⟨?_, ?_, ?_, ?_⟩ <;>
    simp [useMotionifyUnmount, setThreshold, setSupportIdle, ht, hi, h8]

/-- Witness for the amended claim C10: a consumer configured with
threshold 15 and supportIdle true resets both on unmount, and a
consumer configured with the defaults resets nothing. -/
theorem C10_unmount_amended_witness :
    (useMotionifyUnmount { threshold := 15, supportIdle := true }
        (initState 8 false)).threshold = DEFAULT_THRESHOLD ∧
    (useMotionifyUnmount { threshold := 15, supportIdle := true }
        (initState 8 false)).supportIdle = DEFAULT_SUPPORT_IDLE ∧
    (useMotionifyUnmount { threshold := 8, supportIdle := false }
        (initState 12 true)).threshold = (initState 12 true).threshold ∧
    (useMotionifyUnmount { threshold := 8, supportIdle := false }
        (initState 12 true)).supportIdle = (initState 12 true).supportIdle :=
  ⟨(C10_unmount_amended { threshold := 15, supportIdle := true } (initState 8 false)).1
      (by norm_num [DEFAULT_THRESHOLD]),
    (C10_unmount_amended { threshold := 15, supportIdle := true } (initState 8 false)).2.2.1
      (by simp [DEFAULT_SUPPORT_IDLE]),
    (C10_unmount_amended { threshold := 8, supportIdle := false } (initState 12 true)).2.1
      (by norm_num [DEFAULT_THRESHOLD]),
    (C10_unmount_amended { threshold := 8, supportIdle := false } (initState 12 true)).2.2.2
      (by simp [DEFAULT_SUPPORT_IDLE])⟩
